import Mathlib

/-!
Verification development for the CFR-ANALYZER repository
(src/download-cfr/analyze_ecfr.py and src/download-cfr/minimal.py).

The development shallowly embeds the structure-indexing and
reference-resolution code:

* build_structure_dict     (analyze_ecfr.py, lines 71-137)
* the per-reference body of process_agency_cfr_references
                           (analyze_ecfr.py, lines 169-258)
* parse_ancestry           (minimal.py, lines 141-193)

Python dictionaries are modelled as association lists with
overwrite-on-insert semantics; a missing JSON field of string type is
modelled together with the empty string through the Python truthiness
test actually used by the code ("if not item_id", "if part:", ...),
and optional fields of references are Option String so that an absent
field and an empty-string field remain distinguishable, as the code
distinguishes them only through truthiness.  The network/database
collaborators are parameters: the title-structure fetch is a function
argument, and the SQLite error log is modelled as the list of
diagnostic kinds appended during processing.
-/

namespace CFR

/-- Association-list maps modelling Python dict semantics: insertion
overwrites an existing binding of the same key in place, otherwise
appends. -/
abbrev PMap (α : Type) := List (String × α)

def mapInsert {α : Type} (m : PMap α) (k : String) (v : α) : PMap α :=
  match m with
  | [] => [(k, v)]
  | (k', v') :: rest => if k' = k then (k, v) :: rest else (k', v') :: mapInsert rest k v

def mapLookup {α : Type} (m : PMap α) (k : String) : Option α :=
  match m with
  | [] => none
  | (k', v) :: rest => if k' = k then some v else mapLookup rest k

/-- A raw node of the title structure tree as delivered by the fetch
collaborator: the JSON fields actually read by the code.  A missing
"identifier" and an empty-string identifier are both falsy in the
Python code, so both are modelled by the empty string; a missing
"size" defaults to 0 at every read site ("item.get('size', 0)"), so
the default is folded into the field. -/
inductive RawNode where
  | node (type identifier : String) (size : Nat) (reserved : Bool) (children : List RawNode)

def RawNode.type : RawNode → String
  | .node t _ _ _ _ => t

def RawNode.identifier : RawNode → String
  | .node _ i _ _ _ => i

def RawNode.size : RawNode → Nat
  | .node _ _ s _ _ => s

def RawNode.reserved : RawNode → Bool
  | .node _ _ _ r _ => r

def RawNode.children : RawNode → List RawNode
  | .node _ _ _ _ c => c

/-- The indexed structures built by build_structure_dict. -/
structure IndexedSubchapter where
  size : Nat
  parts : PMap Nat
deriving DecidableEq

structure IndexedChapter where
  size : Nat
  subchapters : PMap IndexedSubchapter
  parts : PMap Nat
deriving DecidableEq

structure IndexedSubtitle where
  size : Nat
  chapters : PMap IndexedChapter
deriving DecidableEq

structure IndexedTitle where
  subtitles : PMap IndexedSubtitle
  chapters : PMap IndexedChapter
deriving DecidableEq

/-- analyze_ecfr.py lines 104-112 / 127-135: the inner part loop.
A child is recorded when its type is exactly "part" and it is not
reserved; note the code does not test the part identifier for
truthiness, so an empty identifier is inserted as a key. -/
def partsFold (children : List RawNode) (pm : PMap Nat) : PMap Nat :=
  children.foldl
    (fun pm p =>
      if p.type = "part" && !p.reserved then mapInsert pm p.identifier p.size else pm)
    pm

/-- analyze_ecfr.py lines 97-112 and 120-135 (the two copies are
identical): walk the children of a chapter node.  The loop variable
named "subchapter" in the source ranges over every child of the
chapter with no type test: any child with a truthy identifier is
entered into the subchapters map (key = its identifier, fresh empty
parts map, overwriting any earlier entry of the same key), and the
part-typed grandchildren are then attached to that entry; parts found
under a child with a falsy identifier accumulate in the chapter's own
parts map. -/
def indexChapter (ch : RawNode) : IndexedChapter :=
  ch.children.foldl
    (fun cd child =>
      if child.identifier ≠ "" then
        let entry : IndexedSubchapter :=
          { size := child.size, parts := partsFold child.children [] }
        { cd with subchapters := mapInsert cd.subchapters child.identifier entry }
      else
        { cd with parts := partsFold child.children cd.parts })
    { size := ch.size, subchapters := [], parts := [] }

/-- analyze_ecfr.py lines 86-96: chapters under a subtitle are kept
only when typed "chapter" with a truthy identifier. -/
def indexSubtitleChapters (children : List RawNode) : PMap IndexedChapter :=
  children.foldl
    (fun cm ch =>
      if ch.type = "chapter" && ch.identifier ≠ "" then
        mapInsert cm ch.identifier (indexChapter ch)
      else cm)
    []

/-- analyze_ecfr.py lines 71-137, build_structure_dict.  The argument
is the children list of the raw structure document (the only field of
the document the function reads). -/
def build_structure_dict (children : List RawNode) : IndexedTitle :=
  children.foldl
    (fun td item =>
      if item.identifier = "" then td
      else if item.type = "subtitle" then
        let entry : IndexedSubtitle :=
          { size := item.size, chapters := indexSubtitleChapters item.children }
        { td with subtitles := mapInsert td.subtitles item.identifier entry }
      else if item.type = "chapter" then
        { td with chapters := mapInsert td.chapters item.identifier (indexChapter item) }
      else td)
    { subtitles := [], chapters := [] }

/-- A CFR reference record.  The title must be an int in the source
("isinstance(title, int)"); none models any non-int/missing value.
The level fields are read with ref.get(...) and tested only for
truthiness, so each is an Option String where none models an absent
key and some "" an empty-string value.  The field named "section" in
the source is called sect here because section is a Lean keyword. -/
structure Ref where
  title : Option Int := none
  subtitle : Option String := none
  chapter : Option String := none
  subchapter : Option String := none
  part : Option String := none
  subpart : Option String := none
  sect : Option String := none
deriving DecidableEq

/-- Python truthiness of an optional string value: None and the empty
string are falsy. -/
def truthy : Option String → Bool
  | none => false
  | some s => !(s == "")

/-- Diagnostic kinds, one per distinct error logged through
log_cfr_reference_error in process_agency_cfr_references (the logged
message text itself is not modelled, only which log site fired). -/
inductive Diag where
  | invalidTitle
  | partNotFound
  | subchapterNotFound
  | chapterNotFound
  | subtitleNotFound
  | noValidLevel
  | unsupportedLevel
  | emptyReferenceList
deriving DecidableEq

/-- analyze_ecfr.py lines 200-204 / 208-212: inside a located chapter,
try the subchapter-scoped part map first (only when a subchapter was
supplied and is present), then the chapter-direct part map. -/
def tryChapterParts (cd : IndexedChapter) (sc pt : Option String) : Option Nat :=
  match (if truthy sc then
           match mapLookup cd.subchapters (sc.getD "") with
           | some scd => mapLookup scd.parts (pt.getD "")
           | none => none
         else none) with
  | some n => some n
  | none => mapLookup cd.parts (pt.getD "")

/-- analyze_ecfr.py lines 196-213: the part branch.  First the
subtitle-scoped chapter (only when both subtitle and chapter are
supplied and both resolve), then the title-direct chapter. -/
def partLookup (s : IndexedTitle) (r : Ref) : Option Nat :=
  match (if truthy r.subtitle && truthy r.chapter then
           match mapLookup s.subtitles (r.subtitle.getD "") with
           | some sd =>
             match mapLookup sd.chapters (r.chapter.getD "") with
             | some cd => tryChapterParts cd r.subchapter r.part
             | none => none
           | none => none
         else none) with
  | some n => some n
  | none =>
    if truthy r.chapter then
      match mapLookup s.chapters (r.chapter.getD "") with
      | some cd => tryChapterParts cd r.subchapter r.part
      | none => none
    else none

/-- analyze_ecfr.py lines 218-228: the subchapter branch. -/
def subchapterLookup (s : IndexedTitle) (r : Ref) : Option Nat :=
  match (if truthy r.subtitle && truthy r.chapter then
           match mapLookup s.subtitles (r.subtitle.getD "") with
           | some sd =>
             match mapLookup sd.chapters (r.chapter.getD "") with
             | some cd =>
               match mapLookup cd.subchapters (r.subchapter.getD "") with
               | some scd => some scd.size
               | none => none
             | none => none
           | none => none
         else none) with
  | some n => some n
  | none =>
    if truthy r.chapter then
      match mapLookup s.chapters (r.chapter.getD "") with
      | some cd =>
        match mapLookup cd.subchapters (r.subchapter.getD "") with
        | some scd => some scd.size
        | none => none
      | none => none
    else none

/-- analyze_ecfr.py lines 234-238: the chapter branch (reached only
with no part and no subchapter supplied; the title-direct attempt is
not guarded again on the chapter because the enclosing branch already
established it is truthy). -/
def chapterLookup (s : IndexedTitle) (r : Ref) : Option Nat :=
  match (if truthy r.subtitle then
           match mapLookup s.subtitles (r.subtitle.getD "") with
           | some sd =>
             match mapLookup sd.chapters (r.chapter.getD "") with
             | some cd => some cd.size
             | none => none
           | none => none
         else none) with
  | some n => some n
  | none =>
    match mapLookup s.chapters (r.chapter.getD "") with
    | some cd => some cd.size
    | none => none

/-- analyze_ecfr.py lines 195-258: the per-reference resolution body
of process_agency_cfr_references, once the structure for the title is
in hand.  Returns the contribution added to word_count together with
the diagnostics logged for this reference, in log order.  Each branch
of the source ends in continue, so exactly one level branch runs; the
final unsupported-level log (lines 256-258) is reachable only after
the no-valid-level log because every earlier branch continues. -/
def resolveRef (s : IndexedTitle) (r : Ref) : Nat × List Diag :=
  if truthy r.part then
    match partLookup s r with
    | some n => (n, [])
    | none => (0, [Diag.partNotFound])
  else if truthy r.subchapter then
    match subchapterLookup s r with
    | some n => (n, [])
    | none => (0, [Diag.subchapterNotFound])
  else if truthy r.chapter then
    match chapterLookup s r with
    | some n => (n, [])
    | none => (0, [Diag.chapterNotFound])
  else if truthy r.subtitle then
    match mapLookup s.subtitles (r.subtitle.getD "") with
    | some sd => (sd.size, [])
    | none => (0, [Diag.subtitleNotFound])
  else
    (0, Diag.noValidLevel ::
      (if truthy r.subpart || truthy r.sect then [Diag.unsupportedLevel] else []))

/-- The process-wide cache of indexed titles (title_structures). -/
abbrev Cache := Int → Option IndexedTitle

/-- analyze_ecfr.py lines 169-258: one iteration of the reference
loop.  The fetch argument models fetch_title_structure composed with
build_structure_dict (the network collaborator); a cache miss fetches,
indexes and stores the result before resolving.  The source's
"if not structure" re-check after building (line 190) is dead code,
because build_structure_dict always returns a two-key dict, which is
truthy; it is therefore not modelled. -/
def stepRef (fetch : Int → IndexedTitle) (cache : Cache) (r : Ref) :
    Cache × (Nat × List Diag) :=
  match r.title with
  | none => (cache, (0, [Diag.invalidTitle]))
  | some t =>
    match cache t with
    | some s => (cache, resolveRef s r)
    | none =>
      let s := fetch t
      (fun u => if u = t then some s else cache u, resolveRef s r)

/-- analyze_ecfr.py lines 160-260, process_agency_cfr_references:
the empty-list guard, then the reference loop accumulating word_count
and the diagnostics log. -/
def process_agency_cfr_references (fetch : Int → IndexedTitle) (refs : List Ref)
    (cache : Cache) : Cache × (Nat × List Diag) :=
  if refs.isEmpty then (cache, (0, [Diag.emptyReferenceList]))
  else
    refs.foldl
      (fun acc r =>
        let out := stepRef fetch acc.1 r
        (out.1, (acc.2.1 + out.2.1, acc.2.2 ++ out.2.2)))
      (cache, (0, []))

/-- Whether a part identifier is a key of any part map anywhere in an
indexed title (chapter-direct or subchapter-scoped, under a subtitle
or directly under the title). -/
def partInChapter (cd : IndexedChapter) (pid : String) : Bool :=
  (mapLookup cd.parts pid).isSome ||
    cd.subchapters.any (fun sc => (mapLookup sc.2.parts pid).isSome)

def partIdInSomePartMap (t : IndexedTitle) (pid : String) : Bool :=
  t.chapters.any (fun c => partInChapter c.2 pid) ||
    t.subtitles.any (fun st => st.2.chapters.any (fun c => partInChapter c.2 pid))

/-- An ancestor record as consumed by parse_ancestry (minimal.py):
the code reads type, str(identifier) and size (default 0), so the
identifier field here is already the result of Python str() — a JSON
null identifier arrives as the string "None". -/
structure Ancestor where
  type : String
  identifier : String
  size : Nat
deriving DecidableEq

/-- Python str() of the title field as used by parse_ancestry
(minimal.py line 161): str(None) is the string "None". -/
def pyStrTitle : Option Int → String
  | none => "None"
  | some n => toString n

/-- Truthiness of the reference viewed as the tuple built by
cfr_ref_to_tuple: the tuple is empty exactly when the reference dict
carries none of its keys. -/
def Ref.isEmptyDict (r : Ref) : Bool :=
  r.title.isNone && r.subtitle.isNone && r.chapter.isNone && r.subchapter.isNone &&
    r.part.isNone && r.subpart.isNone && r.sect.isNone

/-- minimal.py lines 159-179: the deepest level named in the
reference, by the chain section, subpart, part, subchapter, chapter,
subtitle, defaulting to the title.  The level fields were normalised
to None when falsy (lines 150-155), so truthiness is the test. -/
def deepestLevel (r : Ref) : String × String :=
  if truthy r.sect then ("section", r.sect.getD "")
  else if truthy r.subpart then ("subpart", r.subpart.getD "")
  else if truthy r.part then ("part", r.part.getD "")
  else if truthy r.subchapter then ("subchapter", r.subchapter.getD "")
  else if truthy r.chapter then ("chapter", r.chapter.getD "")
  else if truthy r.subtitle then ("subtitle", r.subtitle.getD "")
  else ("title", pyStrTitle r.title)

/-- Outcome of parse_ancestry.  The Python function returns an int
and prints; warn is the early-exit warning (line 143-145), notFound
the final error return (line 192-193), found the successful return. -/
inductive AncResult where
  | warn
  | notFound
  | found (size : Nat)
deriving DecidableEq

/-- minimal.py lines 184-193: the linear scan of the ancestor list
for an entry matching the deepest level, returning the first match. -/
def scanAncestors (lvl id : String) : List Ancestor → AncResult
  | [] => AncResult.notFound
  | a :: rest =>
    if a.type == lvl && a.identifier == id then AncResult.found a.size
    else scanAncestors lvl id rest

/-- minimal.py lines 141-193, parse_ancestry. -/
def parse_ancestry (ancestors : List Ancestor) (r : Ref) : AncResult :=
  match ancestors with
  | [] => AncResult.warn
  | _ =>
    if r.isEmptyDict then AncResult.warn
    else scanAncestors (deepestLevel r).1 (deepestLevel r).2 ancestors

/-! Spec-side definitions, worded from the specification text, to be
compared with the source-derived definitions above. -/

/-- The supplied levels of a reference in the priority order of the
spec for the ancestry resolver: section, subpart, part, subchapter,
chapter, subtitle. -/
def suppliedLevels (r : Ref) : List (String × Option String) :=
  [("section", r.sect), ("subpart", r.subpart), ("part", r.part),
   ("subchapter", r.subchapter), ("chapter", r.chapter), ("subtitle", r.subtitle)]

/-- The deepest named level per the spec wording: the first supplied
(truthy) level in priority order, defaulting to the title level. -/
def deepestLevelSpec (r : Ref) : String × String :=
  (((suppliedLevels r).filterMap
      (fun p => if truthy p.2 then some (p.1, p.2.getD "") else none)).headD
    ("title", pyStrTitle r.title))

/-- Spec wording for C6, first stage: the chapter located through the
subtitle-scoped chapter map. -/
def subtitleScopedChapterSize (s : IndexedTitle) (st ch : String) : Option Nat :=
  match mapLookup s.subtitles st with
  | some sd =>
    match mapLookup sd.chapters ch with
    | some cd => some cd.size
    | none => none
  | none => none

/-- Spec wording for C6, second stage: the chapter map directly under
the title. -/
def titleDirectChapterSize (s : IndexedTitle) (ch : String) : Option Nat :=
  match mapLookup s.chapters ch with
  | some cd => some cd.size
  | none => none

/-- Spec wording for C6: try the subtitle-scoped chapter map when a
subtitle is supplied, fall back to the title-direct chapter map when
that lookup fails, and fail with ChapterNotFound only when both
lookups fail. -/
def chapterResolutionSpec (s : IndexedTitle) (r : Ref) : Nat × List Diag :=
  match (if truthy r.subtitle then
           subtitleScopedChapterSize s (r.subtitle.getD "") (r.chapter.getD "")
         else none) with
  | some n => (n, [])
  | none =>
    match titleDirectChapterSize s (r.chapter.getD "") with
    | some n => (n, [])
    | none => (0, [Diag.chapterNotFound])

/-! Helper lemmas shared by the claim theorems. -/

/-- resolveRef reads each level field of the reference only through
its truthiness and (under a truthy guard) its contained string, so
two references agreeing on those observations resolve identically. -/
theorem resolveRef_ext (s : IndexedTitle) (r r' : Ref)
    (h1 : truthy r.subtitle = truthy r'.subtitle)
    (h1g : r.subtitle.getD "" = r'.subtitle.getD "")
    (h2 : truthy r.chapter = truthy r'.chapter)
    (h2g : r.chapter.getD "" = r'.chapter.getD "")
    (h3 : truthy r.subchapter = truthy r'.subchapter)
    (h3g : r.subchapter.getD "" = r'.subchapter.getD "")
    (h4 : truthy r.part = truthy r'.part)
    (h4g : r.part.getD "" = r'.part.getD "")
    (h5 : truthy r.subpart = truthy r'.subpart)
    (h6 : truthy r.sect = truthy r'.sect) :
    resolveRef s r = resolveRef s r' := by
  simp only [resolveRef, partLookup, subchapterLookup, chapterLookup, tryChapterParts,
    h1, h1g, h2, h2g, h3, h3g, h4, h4g, h5, h6]

/-- deepestLevel reads each level field only through truthiness and
the contained string, and the title only through pyStrTitle. -/
theorem deepestLevel_ext (r r' : Ref)
    (ht : pyStrTitle r.title = pyStrTitle r'.title)
    (h1 : truthy r.subtitle = truthy r'.subtitle)
    (h1g : r.subtitle.getD "" = r'.subtitle.getD "")
    (h2 : truthy r.chapter = truthy r'.chapter)
    (h2g : r.chapter.getD "" = r'.chapter.getD "")
    (h3 : truthy r.subchapter = truthy r'.subchapter)
    (h3g : r.subchapter.getD "" = r'.subchapter.getD "")
    (h4 : truthy r.part = truthy r'.part)
    (h4g : r.part.getD "" = r'.part.getD "")
    (h5 : truthy r.subpart = truthy r'.subpart)
    (h5g : r.subpart.getD "" = r'.subpart.getD "")
    (h6 : truthy r.sect = truthy r'.sect)
    (h6g : r.sect.getD "" = r'.sect.getD "") :
    deepestLevel r = deepestLevel r' := by
  simp only [deepestLevel, ht, h1, h1g, h2, h2g, h3, h3g, h4, h4g, h5, h5g, h6, h6g]

/-- The sequential scan of parse_ancestry is the first match of the
ancestor list under the type-and-identifier predicate. -/
theorem scanAncestors_eq_find (lvl id : String) (l : List Ancestor) :
    scanAncestors lvl id l =
      (match l.find? (fun a => a.type == lvl && a.identifier == id) with
       | some a => AncResult.found a.size
       | none => AncResult.notFound) := by
  induction l with
  | nil => rfl
  | cons a rest ih =>
    cases h : (a.type == lvl && a.identifier == id) <;>
      simp [scanAncestors, List.find?, h, ih]

/-- The if-chain of parse_ancestry computes the same level as the
priority-list wording of the spec. -/
theorem deepestLevel_eq_spec (r : Ref) : deepestLevel r = deepestLevelSpec r := by
  cases h6 : truthy r.sect <;> cases h5 : truthy r.subpart <;> cases h4 : truthy r.part <;>
    cases h3 : truthy r.subchapter <;> cases h2 : truthy r.chapter <;>
    cases h1 : truthy r.subtitle <;>
    simp [deepestLevel, deepestLevelSpec, suppliedLevels, h1, h2, h3, h4, h5, h6]

/-! Concrete inputs used by the claim theorems, counterexamples and
witnesses. -/

/-- A chapter directly under the title whose only child is a
non-reserved part with a non-empty identifier. -/
def directPartTree : List RawNode :=
  [ .node "chapter" "I" 40 false [ .node "part" "12" 15 false [] ] ]

/-- The tree of spec Scenario A: subtitle A (size 100) containing
chapter I (size 40) directly containing part 12 (size 15, not
reserved). -/
def scenarioATree : List RawNode :=
  [ .node "subtitle" "A" 100 false
      [ .node "chapter" "I" 40 false
          [ .node "part" "12" 15 false [] ] ] ]

/-- The reference of spec Scenario A. -/
def scenarioARef : Ref :=
  { title := some 1, subtitle := some "A", chapter := some "I", part := some "12" }

/-- A chapter with a direct non-reserved part (identifier 3), and a
subchapter S containing a non-reserved part with an empty identifier
and a reserved part (identifier 7). -/
def mixedPartsTree : List RawNode :=
  [ .node "chapter" "C" 50 false
      [ .node "part" "3" 9 false [],
        .node "subchapter" "S" 30 false
          [ .node "part" "" 5 false [],
            .node "part" "7" 9 true [] ] ] ]

/-- A chapter I containing only subchapter S of size 25. -/
def subchTree : List RawNode :=
  [ .node "chapter" "I" 40 false [ .node "subchapter" "S" 25 false [] ] ]

/-- A reference naming part 99, which is absent, under subchapter S,
which is present. -/
def fallbackProbeRef : Ref :=
  { title := some 1, chapter := some "I", subchapter := some "S", part := some "99" }

/-- A bare chapter I of size 40. -/
def chapterOnlyTree : List RawNode := [ .node "chapter" "I" 40 false [] ]

/-! Claim theorems. -/

/-- C1: the claim states that a part whose parent is a chapter with
no intervening subchapter is stored in that chapter's own part map.
On the code, indexing the tree [chapter I [part 12]] instead records
the part as a spurious subchapter entry keyed by the part identifier
(the subchapter loop of build_structure_dict never checks the child
type), and the chapter's part map stays empty, so the part identifier
appears in no part map at all. -/
theorem direct_chapter_part_misindexed :
    build_structure_dict directPartTree =
      { subtitles := [],
        chapters := [("I",
          { size := 40,
            subchapters := [("12", { size := 15, parts := [] })],
            parts := [] })] } ∧
    partIdInSomePartMap (build_structure_dict directPartTree) "12" = false := by
  exact ⟨rfl, rfl⟩

/-- C2: on the Scenario A tree, the code resolves the Scenario A
reference to 0 with a part-not-found diagnostic, not to the size 15
stated by the claim, because the part was misindexed as a subchapter
entry. -/
theorem scenarioA_resolves_to_zero :
    resolveRef (build_structure_dict scenarioATree) scenarioARef
      = (0, [Diag.partNotFound]) := rfl

/-- C3: the claim states that a part identifier appears in some part
map iff the part is not reserved and its identifier is non-empty.
Both directions fail on the code: the non-reserved part 3 with a
non-empty identifier sitting directly under chapter C appears in no
part map (it is misindexed as a subchapter), while the non-reserved
part with an empty identifier under subchapter S is inserted under
the empty-string key (the code never tests the part identifier for
truthiness).  The reserved part 7 is dropped, as the claim states. -/
theorem part_presence_iff_violated :
    partIdInSomePartMap (build_structure_dict mixedPartsTree) "3" = false ∧
    partIdInSomePartMap (build_structure_dict mixedPartsTree) "" = true ∧
    partIdInSomePartMap (build_structure_dict mixedPartsTree) "7" = false := by
  exact ⟨rfl, rfl, rfl⟩

/-- C4 counterexample: over the tree [chapter I [subchapter S size
25]], the reference (title 1, chapter I, subchapter S, part 99) fails
with PartNotFound and contributes 0, even though dropping the part
field resolves the same reference at the subchapter level to 25; the
resolver therefore does not fall back to the next-less-specific
supplied field as the claim states. -/
theorem no_fallback_to_subchapter_level :
    resolveRef (build_structure_dict subchTree) fallbackProbeRef
        = (0, [Diag.partNotFound]) ∧
    resolveRef (build_structure_dict subchTree) { fallbackProbeRef with part := none }
        = (25, []) := by
  exact ⟨rfl, rfl⟩

/-- C4 amended: when the most specific supplied field of a reference
(part, subchapter, chapter or subtitle, in that order of specificity)
cannot be resolved — for the part, subchapter and chapter levels
after trying every candidate ancestor path of that level — resolution
fails terminally at that level, recording that level's NotFound error
and contributing zero; it never falls back to the next-less-specific
supplied field. -/
theorem failure_at_deepest_level_is_terminal (s : IndexedTitle) (r : Ref) :
    (truthy r.part = true → partLookup s r = none →
       resolveRef s r = (0, [Diag.partNotFound])) ∧
    (truthy r.part = false → truthy r.subchapter = true →
       subchapterLookup s r = none →
       resolveRef s r = (0, [Diag.subchapterNotFound])) ∧
    (truthy r.part = false → truthy r.subchapter = false →
       truthy r.chapter = true → chapterLookup s r = none →
       resolveRef s r = (0, [Diag.chapterNotFound])) ∧
    (truthy r.part = false → truthy r.subchapter = false →
       truthy r.chapter = false → truthy r.subtitle = true →
       mapLookup s.subtitles (r.subtitle.getD "") = none →
       resolveRef s r = (0, [Diag.subtitleNotFound])) := by
  refine ⟨?_, ?_, ?_, ?_⟩
  · intro hp hf
    simp [resolveRef, hp, hf]
  · intro hp hsc hf
    simp [resolveRef, hp, hsc, hf]
  · intro hp hsc hc hf
    simp [resolveRef, hp, hsc, hc, hf]
  · intro hp hsc hc hst hf
    simp [resolveRef, hp, hsc, hc, hst, hf]

/-- Witness for failure_at_deepest_level_is_terminal, exercising each
of its four conjuncts over the empty indexed title, where every
lookup fails. -/
theorem failure_at_deepest_level_witness :
    resolveRef { subtitles := [], chapters := [] } { title := some 1, part := some "5" }
        = (0, [Diag.partNotFound]) ∧
    resolveRef { subtitles := [], chapters := [] } { title := some 1, subchapter := some "S" }
        = (0, [Diag.subchapterNotFound]) ∧
    resolveRef { subtitles := [], chapters := [] } { title := some 1, chapter := some "I" }
        = (0, [Diag.chapterNotFound]) ∧
    resolveRef { subtitles := [], chapters := [] } { title := some 1, subtitle := some "A" }
        = (0, [Diag.subtitleNotFound]) :=
  ⟨(failure_at_deepest_level_is_terminal { subtitles := [], chapters := [] }
      { title := some 1, part := some "5" }).1 (by decide) (by decide),
   (failure_at_deepest_level_is_terminal { subtitles := [], chapters := [] }
      { title := some 1, subchapter := some "S" }).2.1 (by decide) (by decide) (by decide),
   (failure_at_deepest_level_is_terminal { subtitles := [], chapters := [] }
      { title := some 1, chapter := some "I" }).2.2.1
     (by decide) (by decide) (by decide) (by decide),
   (failure_at_deepest_level_is_terminal { subtitles := [], chapters := [] }
      { title := some 1, subtitle := some "A" }).2.2.2
     (by decide) (by decide) (by decide) (by decide) (by decide)⟩

/-- C5 counterexample: a reference carrying subpart b together with a
resolvable chapter I resolves to the chapter size 40 with an empty
diagnostics list: no UnsupportedLevel diagnostic is recorded, contrary
to the claim that the diagnostic is recorded whenever subpart or
section is present.  Every shallower-level branch of the source ends
in continue before the unsupported-level log is reached. -/
theorem subpart_present_no_unsupported_diag :
    resolveRef (build_structure_dict chapterOnlyTree)
        { title := some 1, chapter := some "I", subpart := some "b" } = (40, []) ∧
    Diag.unsupportedLevel ∉
      (resolveRef (build_structure_dict chapterOnlyTree)
        { title := some 1, chapter := some "I", subpart := some "b" }).2 := by
  exact ⟨rfl, by decide⟩

/-- C5 amended: an UnsupportedLevel diagnostic is recorded for a
reference if and only if none of part, subchapter, chapter and
subtitle is supplied and subpart or section is present; and in that
case the outcome is exactly a zero contribution with the diagnostic
accompanying the no-valid-level error, so the diagnostic never
changes the returned size. -/
theorem unsupported_diag_iff_no_level_supplied (s : IndexedTitle) (r : Ref) :
    (Diag.unsupportedLevel ∈ (resolveRef s r).2 ↔
      (truthy r.part = false ∧ truthy r.subchapter = false ∧ truthy r.chapter = false ∧
       truthy r.subtitle = false ∧ (truthy r.subpart = true ∨ truthy r.sect = true))) ∧
    (truthy r.part = false → truthy r.subchapter = false → truthy r.chapter = false →
     truthy r.subtitle = false → (truthy r.subpart = true ∨ truthy r.sect = true) →
     resolveRef s r = (0, [Diag.noValidLevel, Diag.unsupportedLevel])) := by
  constructor
  · unfold resolveRef
    cases hp : truthy r.part
    · cases hsc : truthy r.subchapter
      · cases hc : truthy r.chapter
        · cases hst : truthy r.subtitle
          · cases hspa : truthy r.subpart <;> cases hsec : truthy r.sect <;> simp_all
          · cases h : mapLookup s.subtitles (r.subtitle.getD "") <;> simp_all
        · cases h : chapterLookup s r <;> simp_all
      · cases h : subchapterLookup s r <;> simp_all
    · cases h : partLookup s r <;> simp_all
  · intro hp hsc hc hst hx
    rcases hx with hx | hx <;> simp [resolveRef, hp, hsc, hc, hst, hx]

/-- Witness for unsupported_diag_iff_no_level_supplied, exercising
the implication conjunct at a concrete reference that supplies only a
subpart. -/
theorem unsupported_diag_witness :
    resolveRef { subtitles := [], chapters := [] } { title := some 1, subpart := some "b" }
      = (0, [Diag.noValidLevel, Diag.unsupportedLevel]) :=
  (unsupported_diag_iff_no_level_supplied { subtitles := [], chapters := [] }
      { title := some 1, subpart := some "b" }).2
    (by decide) (by decide) (by decide) (by decide) (Or.inl (by decide))

/-- C6: for a reference supplying a chapter but no part and no
subchapter, the resolver first tries the subtitle-scoped chapter map
(when a subtitle is supplied and present), falls back to the chapter
map directly under the title when that lookup fails, and fails with
ChapterNotFound only when both lookups fail. -/
theorem chapter_two_stage_lookup (s : IndexedTitle) (r : Ref)
    (hp : truthy r.part = false) (hsc : truthy r.subchapter = false)
    (hc : truthy r.chapter = true) :
    resolveRef s r = chapterResolutionSpec s r := by
  simp only [resolveRef, hp, hsc, hc, Bool.false_eq_true, if_false, if_true]
  unfold chapterLookup chapterResolutionSpec subtitleScopedChapterSize titleDirectChapterSize
  cases hst : truthy r.subtitle
  · cases h2 : mapLookup s.chapters (r.chapter.getD "") <;> simp [hst, h2]
  · cases h1 : mapLookup s.subtitles (r.subtitle.getD "") with
    | none => cases h2 : mapLookup s.chapters (r.chapter.getD "") <;> simp [hst, h1, h2]
    | some sd =>
      cases h3 : mapLookup sd.chapters (r.chapter.getD "") with
      | none => cases h2 : mapLookup s.chapters (r.chapter.getD "") <;> simp [hst, h1, h3, h2]
      | some cd => simp [hst, h1, h3]

/-- A title with chapter I under subtitle A and chapter II directly
under the title. -/
def twoPathTree : List RawNode :=
  [ .node "subtitle" "A" 100 false [ .node "chapter" "I" 40 false [] ],
    .node "chapter" "II" 60 false [] ]

/-- Witness for chapter_two_stage_lookup at a concrete input. -/
theorem chapter_two_stage_lookup_witness :
    resolveRef (build_structure_dict twoPathTree)
        { title := some 1, subtitle := some "A", chapter := some "I" }
      = chapterResolutionSpec (build_structure_dict twoPathTree)
        { title := some 1, subtitle := some "A", chapter := some "I" } :=
  chapter_two_stage_lookup (build_structure_dict twoPathTree)
    { title := some 1, subtitle := some "A", chapter := some "I" }
    (by decide) (by decide) (by decide)

/-- C7: for a non-empty ancestor list and a reference with at least
one field, parse_ancestry computes the deepest level named in the
reference by the priority section, subpart, part, subchapter,
chapter, subtitle, title, and returns the size of the first ancestor
whose type and identifier both match that level, failing when no
ancestor matches, with no fallback to any shallower level. -/
theorem ancestry_exact_match_at_deepest_level (ancestors : List Ancestor) (r : Ref)
    (h1 : ancestors ≠ []) (h2 : r.isEmptyDict = false) :
    parse_ancestry ancestors r =
      (match ancestors.find? (fun a =>
          a.type == (deepestLevelSpec r).1 && a.identifier == (deepestLevelSpec r).2) with
       | some a => AncResult.found a.size
       | none => AncResult.notFound) := by
  cases ancestors with
  | nil => exact absurd rfl h1
  | cons a rest =>
    show (if r.isEmptyDict then AncResult.warn
          else scanAncestors (deepestLevel r).1 (deepestLevel r).2 (a :: rest)) = _
    rw [h2]
    simp only [Bool.false_eq_true, if_false]
    rw [deepestLevel_eq_spec]
    exact scanAncestors_eq_find _ _ _

/-- A sample ancestor list and reference for the C7 witness. -/
def ancW : List Ancestor :=
  [ { type := "chapter", identifier := "I", size := 40 },
    { type := "part", identifier := "12", size := 15 } ]

def refAncW : Ref := { title := some 1, chapter := some "I", part := some "12" }

/-- Witness for ancestry_exact_match_at_deepest_level at a concrete
input (the deepest level is the part, matched by the second ancestor
of size 15). -/
theorem ancestry_exact_match_witness :
    parse_ancestry ancW refAncW =
      (match ancW.find? (fun a =>
          a.type == (deepestLevelSpec refAncW).1 &&
            a.identifier == (deepestLevelSpec refAncW).2) with
       | some a => AncResult.found a.size
       | none => AncResult.notFound) :=
  ancestry_exact_match_at_deepest_level ancW refAncW (by decide) (by decide)

/-- C8: an empty reference list yields a zero total, exactly one
EmptyReferenceList diagnostic, and an untouched cache (no resolution
or fetch is attempted). -/
theorem empty_reference_list_zero_and_diag (fetch : Int → IndexedTitle) (cache : Cache) :
    process_agency_cfr_references fetch [] cache
      = (cache, (0, [Diag.emptyReferenceList])) := rfl

/-- C9: when the cache already holds the indexed structure for the
reference's title, one resolution step leaves the cache unchanged and
returns the outcome determined by that structure, and running the
step again produces the identical outcome. -/
theorem resolution_idempotent_and_pure (fetch : Int → IndexedTitle) (cache : Cache)
    (r : Ref) (t : Int) (s : IndexedTitle)
    (h1 : r.title = some t) (h2 : cache t = some s) :
    stepRef fetch cache r = (cache, resolveRef s r) ∧
    stepRef fetch (stepRef fetch cache r).1 r = stepRef fetch cache r := by
  have h : stepRef fetch cache r = (cache, resolveRef s r) := by
    simp [stepRef, h1, h2]
  exact ⟨h, by rw [h]; exact h⟩

def cacheW : Cache :=
  fun t => if t = 1 then some (build_structure_dict chapterOnlyTree) else none

def fetchW : Int → IndexedTitle := fun _ => { subtitles := [], chapters := [] }

def refW : Ref := { title := some 1, chapter := some "I" }

/-- Witness for resolution_idempotent_and_pure at a concrete input. -/
theorem resolution_idempotent_witness :
    stepRef fetchW cacheW refW
        = (cacheW, resolveRef (build_structure_dict chapterOnlyTree) refW) ∧
    stepRef fetchW (stepRef fetchW cacheW refW).1 refW = stepRef fetchW cacheW refW :=
  resolution_idempotent_and_pure fetchW cacheW refW 1
    (build_structure_dict chapterOnlyTree) rfl rfl

/-- C10: a level field holding the empty string is treated by the
resolver exactly as an absent field (the resolution outcome including
its diagnostics is unchanged by replacing some empty string with
none, for each of the six level fields), and the ancestry resolver
computes the same deepest level in both cases, so the empty value is
never looked up as an identifier. -/
theorem empty_string_field_behaves_as_absent (s : IndexedTitle) (r : Ref) :
    (resolveRef s { r with subtitle := some "" } = resolveRef s { r with subtitle := none }) ∧
    (resolveRef s { r with chapter := some "" } = resolveRef s { r with chapter := none }) ∧
    (resolveRef s { r with subchapter := some "" } = resolveRef s { r with subchapter := none }) ∧
    (resolveRef s { r with part := some "" } = resolveRef s { r with part := none }) ∧
    (resolveRef s { r with subpart := some "" } = resolveRef s { r with subpart := none }) ∧
    (resolveRef s { r with sect := some "" } = resolveRef s { r with sect := none }) ∧
    (deepestLevel { r with subtitle := some "" } = deepestLevel { r with subtitle := none }) ∧
    (deepestLevel { r with chapter := some "" } = deepestLevel { r with chapter := none }) ∧
    (deepestLevel { r with subchapter := some "" } = deepestLevel { r with subchapter := none }) ∧
    (deepestLevel { r with part := some "" } = deepestLevel { r with part := none }) ∧
    (deepestLevel { r with subpart := some "" } = deepestLevel { r with subpart := none }) ∧
    (deepestLevel { r with sect := some "" } = deepestLevel { r with sect := none }) := by
  refine ⟨?_, ?_, ?_, ?_, ?_, ?_, ?_, ?_, ?_, ?_, ?_, ?_⟩ <;>
    first
      | exact resolveRef_ext _ _ _ rfl rfl rfl rfl rfl rfl rfl rfl rfl rfl
      | exact deepestLevel_ext _ _ rfl rfl rfl rfl rfl rfl rfl rfl rfl rfl rfl rfl rfl

end CFR
